import Mathlib

/-!
Verification development for the `rust_azure_email_communication` client
library.  The definitions below are a shallow embedding, into Lean, of the
Rust source under `src/`:

* `src/utils.rs` — `parse_endpoint`, `get_request_header`
  (the shared-key signing path);
* `src/domain/entities/models.rs` — the email data model and
  `SentEmailBuilder::build`;
* `src/adapters/gateways/acs_email.rs` — the send/retry loop
  (`handle_response_and_retry_if_needed`) and the status-polling loop of
  `send_email_with_callback`.

Rust strings are embedded as `List Char` where proofs need to reason about
splitting/concatenation, and as Lean `String` elsewhere.  External crates
(`sha2`, `hmac`, `url`, `httpdate`, serde JSON deserialization and the HTTP
transport) are modelled as explicit function parameters or as abstract data
carried by a response record, so every repository-owned code path is
transcribed literally while third-party effects stay symbolic.
-/

namespace AcsEmail

/-! ## Endpoint parser (`src/utils.rs`, `parse_endpoint`) -/

/-- Rust `str::split(';')` on a character list: splits on every `';'`,
keeping empty segments, and yields one (possibly empty) segment even for the
empty input — the exact semantics of the iterator collected at
`utils.rs:62`. -/
def splitSemiAux : List Char → List Char → List (List Char)
  | [], acc => [acc.reverse]
  | c :: cs, acc =>
    if c = ';' then acc.reverse :: splitSemiAux cs [] else splitSemiAux cs (c :: acc)

/-- Models `endpoint.split(';').collect::<Vec<_>>()` from `utils.rs:62`. -/
def splitSemi (s : List Char) : List (List Char) :=
  splitSemiAux s []

/-- Rust `str::strip_prefix`: `some` of the remainder when `p` is a prefix
of `s`, `none` otherwise. -/
def stripPfx : List Char → List Char → Option (List Char)
  | [], s => some s
  | _ :: _, [] => none
  | p :: ps, c :: cs => if p = c then stripPfx ps cs else none

/-- Structure `EndPointParams` from `src/models.rs` (host name and access key). -/
structure EndPointParams where
  host_name : List Char
  access_key : List Char
deriving DecidableEq, Repr

/-- Modelled from the external `url` crate: `Url::parse(s)` followed by
`.host_str()`, the only use `parse_endpoint` makes of the crate
(`utils.rs:74-79`).  `.error ()` is a parse failure (e.g. a relative URL
without a base); `.ok none` is a URL that parses but has no host (an opaque
path such as `mailto:`); `.ok (some h)` is the host, ASCII-lowercased as the
crate does, with userinfo and port stripped.  Restricted to the
scheme-and-authority forms exercised by connection strings. -/
def urlParseHost (s : List Char) : Except Unit (Option (List Char)) :=
  let isSchemeStart : Char → Bool := fun c =>
    decide (('a' ≤ c ∧ c ≤ 'z') ∨ ('A' ≤ c ∧ c ≤ 'Z'))
  let isSchemeChar : Char → Bool := fun c =>
    decide (('a' ≤ c ∧ c ≤ 'z') ∨ ('A' ≤ c ∧ c ≤ 'Z') ∨ ('0' ≤ c ∧ c ≤ '9')
      ∨ c = '+' ∨ c = '-' ∨ c = '.')
  let lower : Char → Char := fun c =>
    if 'A' ≤ c ∧ c ≤ 'Z' then Char.ofNat (c.toNat + 32) else c
  match s with
  | [] => .error ()
  | c :: rest =>
    if isSchemeStart c then
      let afterScheme := rest.dropWhile isSchemeChar
      match afterScheme with
      | ':' :: tail =>
        match tail with
        | '/' :: '/' :: auth =>
          let authority := auth.takeWhile fun c => ¬ (c = '/' ∨ c = '?' ∨ c = '#')
          let hostPort :=
            if authority.contains '@' then
              (authority.reverse.takeWhile (· ≠ '@')).reverse
            else authority
          let host := hostPort.takeWhile (· ≠ ':')
          if host = [] then .error () else .ok (some (host.map lower))
        | _ => .ok none
      | _ => .error ()
    else .error ()

/-- The `endpoint=` parameter prefix of `utils.rs:73`. -/
def endpointPfx : List Char := "endpoint=".toList

/-- The `accesskey=` parameter prefix of `utils.rs:81`. -/
def accesskeyPfx : List Char := "accesskey=".toList

/-- Body of `parse_endpoint`'s per-parameter loop body (`utils.rs:72-87`): try the
`endpoint=` prefix first, then `accesskey=`, else reject; the two record
fields are the loop's mutable accumulator. -/
def parseEndpointLoop : List (List Char) → EndPointParams →
    Except (List Char) EndPointParams
  | [], acc => .ok acc
  | param :: rest, acc =>
    match stripPfx endpointPfx param with
    | some host =>
      match urlParseHost host with
      | .error _ => .error "Invalid endpoint URL".toList
      | .ok none => .error "Missing host in endpoint URL".toList
      | .ok (some h) => parseEndpointLoop rest { acc with host_name := h }
    | none =>
      match stripPfx accesskeyPfx param with
      | some key => parseEndpointLoop rest { acc with access_key := key }
      | none => .error "Invalid parameter in connection string".toList

/-- Function `parse_endpoint` (`utils.rs:60-90`): split on `';'`, require exactly two
parameters, then fold the loop body over them starting from empty host and
key.  Error strings keep the source's fixed text (the formatted dynamic
cause of a URL error is elided). -/
def parse_endpoint (endpoint : List Char) : Except (List Char) EndPointParams :=
  let parameters := splitSemi endpoint
  if parameters.length ≠ 2 then
    .error "Connection string must contain exactly two parameters".toList
  else
    parseEndpointLoop parameters ⟨[], []⟩

/-! ## Email data model and builder (`src/domain/entities/models.rs`) -/

/-- Enum `EmailSendStatusType` (`models.rs:23-30`). -/
inductive EmailSendStatusType where
  | Unknown
  | Canceled
  | Failed
  | NotStarted
  | Running
  | Succeeded
deriving DecidableEq, Repr

/-- Structure `EmailAddress` (`models.rs:330-338`). -/
structure EmailAddress where
  email : Option String
  display_name : Option String
deriving DecidableEq, Repr

/-- Structure `Recipients` (`models.rs:314-326`): every list, including `to`, is
optional. -/
structure Recipients where
  «to» : Option (List EmailAddress)
  cc : Option (List EmailAddress)
  b_cc : Option (List EmailAddress)
deriving DecidableEq, Repr

/-- Structure `EmailContent` (`models.rs:286-298`). -/
structure EmailContent where
  subject : Option String
  plain_text : Option String
  html : Option String
deriving DecidableEq, Repr

/-- Structure `Header` (`models.rs:302-310`). -/
structure Header where
  name : Option String
  value : Option String
deriving DecidableEq, Repr

/-- Structure `EmailAttachment` (`models.rs:270-282`). -/
structure EmailAttachment where
  name : Option String
  attachment_type : Option String
  content_bytes_base64 : Option String
deriving DecidableEq, Repr

/-- Structure `SentEmail` (`models.rs:84-115`). -/
structure SentEmail where
  headers : Option (List Header)
  sender : String
  content : EmailContent
  recipients : Recipients
  attachments : Option (List EmailAttachment)
  reply_to : Option (List EmailAddress)
  user_engagement_tracking_disabled : Option Bool
deriving DecidableEq, Repr

/-- Structure `SentEmailBuilder` (`models.rs:118-126`): every field optional until
`build`. -/
structure SentEmailBuilder where
  headers : Option (List Header)
  sender : Option String
  content : Option EmailContent
  recipients : Option Recipients
  attachments : Option (List EmailAttachment)
  reply_to : Option (List EmailAddress)
  user_engagement_tracking_disabled : Option Bool
deriving DecidableEq, Repr

/-- Method `SentEmailBuilder::build` (`models.rs:255-265`): `ok_or` on sender,
content and recipients; all other fields pass through unchecked. -/
def SentEmailBuilder.build (b : SentEmailBuilder) : Except String SentEmail :=
  match b.sender with
  | none => .error "Sender is required"
  | some sender =>
    match b.content with
    | none => .error "Content is required"
    | some content =>
      match b.recipients with
      | none => .error "Recipients are required"
      | some recipients =>
        .ok { headers := b.headers, sender, content, recipients,
              attachments := b.attachments, reply_to := b.reply_to,
              user_engagement_tracking_disabled :=
                b.user_engagement_tracking_disabled }

/-- Structure `ErrorAdditionalInfo` (`models.rs:72-80`). -/
structure ErrorAdditionalInfo where
  info : Option String
  info_type : Option String
deriving DecidableEq, Repr

/-- Structure `ErrorDetail` (`models.rs:50-68`); `Default::default()` is the
all-`none` record. -/
structure ErrorDetail where
  additional_info : Option (List ErrorAdditionalInfo) := none
  code : Option String := none
  message : Option String := none
  target : Option String := none
deriving DecidableEq, Repr

/-- Structure `ErrorResponse` (`models.rs:342-346`). -/
structure ErrorResponse where
  error : Option ErrorDetail
deriving DecidableEq, Repr

/-- Structure `SentEmailResponse` (`models.rs:34-46`): `id`, `status` and `error` are
all optional in the deserialized body. -/
structure SentEmailResponse where
  id : Option String
  status : Option EmailSendStatusType
  error : Option ErrorDetail
deriving DecidableEq, Repr

/-! ## Shared-key request headers (`src/utils.rs`, `get_request_header`) -/

/-- The slice of the external `url::Url` value that `get_request_header`
reads: `.host_str()`, `.path()` and `.query()`. -/
structure Url where
  host_str : Option String
  path : String
  query : Option String
deriving DecidableEq, Repr

/-- Function `to_error_response` (`acs_email.rs:367-374`): wraps
`format!("{}: {}", message, error)` into an `ErrorResponse` whose only
populated field is the message. -/
def to_error_response (message : String) (error : String) : ErrorResponse :=
  { error := some { message := some (message ++ ": " ++ error) } }

/-- The `path_and_query` local of `utils.rs:126-129`: the URL's path, with
`?query` appended only when a query is present. -/
def pathAndQuery (url_endpoint : Url) : String :=
  match url_endpoint.query with
  | some query => url_endpoint.path ++ "?" ++ query
  | none => url_endpoint.path

/-- The `string_to_sign` local of `utils.rs:130-133`:
`format!("{}\n{}\n{};{};{}", method, path_and_query, date, host, hash)`. -/
def stringToSign (http_method path_and_query http_date host_authority
    content_hash : String) : String :=
  http_method ++ "\n" ++ path_and_query ++ "\n" ++ http_date ++ ";"
    ++ host_authority ++ ";" ++ content_hash

/-- Function `get_request_header` (`utils.rs:105-144`).  The external effects are
parameters: `hashFn` is `compute_content_sha256` (sha2 + base64), `signFn`
is `compute_signature` (base64-decode the key, HMAC-SHA256, base64 —
failing when the key is not base64), `fmtHttpDate` is
`httpdate::fmt_http_date` and `now` the single `SystemTime::now()` read at
`utils.rs:114`.  The returned header map is the insertion-ordered
association list of the six `headers.insert` calls; the source inserts the
first five before resolving the host, but on the error paths the map is
discarded, so the observable behaviour is identical. -/
def get_request_header (hashFn : String → String)
    (signFn : String → String → Except String String)
    (fmtHttpDate : Nat → String) (now : Nat) (url_endpoint : Url)
    (http_method request_id json_payload access_key : String) :
    Except String (List (String × String)) :=
  match url_endpoint.host_str with
  | none => .error "Missing host in URL"
  | some host_authority =>
    match signFn
        (stringToSign http_method (pathAndQuery url_endpoint)
          (fmtHttpDate now) host_authority (hashFn json_payload))
        access_key with
    | .error e => .error e
    | .ok signature =>
      .ok [("Content-Type", "application/json"),
           ("repeatability-request-id", request_id),
           ("repeatability-first-sent", fmtHttpDate now),
           ("x-ms-date", fmtHttpDate now),
           ("x-ms-content-sha256", hashFn json_payload),
           ("Authorization",
             "HMAC-SHA256 SignedHeaders=x-ms-date;host;x-ms-content-sha256&Signature="
               ++ signature)]

/-! ## Send path retry loop
(`src/adapters/gateways/acs_email.rs`, `handle_response_and_retry_if_needed`) -/

/-- Create an error response for a missing ID
(`acs_email.rs:593-595`). -/
def create_missing_id_error : ErrorResponse :=
  to_error_response "Missing ID in response" ""

/-- An HTTP response as the retry loop observes it.  `status` is the numeric
status code; `retryAfter` is `response.headers().get(RETRY_AFTER)` — a raw
header value (arbitrary bytes, embedded as a character list); the two body
fields are the outcomes of `response.json::<SentEmailResponse>()` and
`response.json::<ErrorResponse>()` on the same raw body, with a serde
failure already mapped through `to_error_response` as `parse_response`
does (`acs_email.rs:555-563`). -/
structure HttpResponse where
  status : Nat
  retryAfter : Option (List Char)
  bodySentEmail : Except ErrorResponse SentEmailResponse
  bodyError : Except ErrorResponse ErrorResponse

/-- Models `reqwest::header::HeaderValue::to_str`: succeeds exactly when every byte
is visible ASCII or space (0x20–0x7E). -/
def headerValueToStr (v : List Char) : Option String :=
  if v.all fun c => 32 ≤ c.toNat ∧ c.toNat ≤ 126 then some (String.mk v)
  else none

/-- Rust `str::parse::<u64>()`: an optional leading `'+'`, then one or more
ASCII digits, rejecting anything else and values above `u64::MAX`. -/
def parseU64 (s : String) : Option Nat :=
  let digits := match s.toList with
    | '+' :: rest => rest
    | l => l
  if digits ≠ [] ∧ digits.all Char.isDigit then
    let n := digits.foldl (fun acc c => acc * 10 + (c.toNat - 48)) 0
    if n < 2 ^ 64 then some n else none
  else none

/-- Function `parse_error_response` (`acs_email.rs:574-577`): deserialize the body as
an `ErrorResponse` and return it as the `Err` payload; a body that does not
deserialize yields the mapped parse error instead.  Either way the result is
an error. -/
def parse_error_response (resp : HttpResponse) : Except ErrorResponse String :=
  match resp.bodyError with
  | .ok errorResponse => .error errorResponse
  | .error parseErr => .error parseErr

/-- The outcome of one run of the retry loop: the value returned to the
caller, the successive `sleep` durations in seconds, and how many times the
request was re-sent. -/
structure RetryRunResult where
  result : Except ErrorResponse String
  waits : List Nat
  resends : Nat
deriving Repr

/-- The `loop` of `handle_response_and_retry_if_needed`
(`acs_email.rs:494-543`).  `resend` gives the outcome of the `n`-th
`send_request` re-issue (`acs_email.rs:534-536`), `Err` being a transport
failure propagated by `?`.  The source loop runs with a mutable `retries`
counter and exits as soon as `retries >= max_retries` on a throttled
response; since `retries` only ever increases, `budget = max_retries -
retries` strictly decreases on every continuing iteration, and the loop is
transcribed structurally on that budget (`budget = 0` is exactly the
`retries >= max_retries` test).  `429 = TOO_MANY_REQUESTS`,
`503 = SERVICE_UNAVAILABLE`, `202 = ACCEPTED`. -/
def handleRetryLoop (resend : Nat → Except ErrorResponse HttpResponse)
    (budget retries : Nat) (resp : HttpResponse) : RetryRunResult :=
    if resp.status = 202 then
      match resp.bodySentEmail with
      | .error e => ⟨.error e, [], 0⟩
      | .ok body =>
        match body.id with
        | some i => ⟨.ok i, [], 0⟩
        | none => ⟨.error create_missing_id_error, [], 0⟩
    else if resp.status = 429 ∨ resp.status = 503 then
      match budget with
      | 0 => ⟨parse_error_response resp, [], 0⟩
      | budget' + 1 =>
        let wait : Except Unit Nat :=
          match resp.retryAfter with
          | some rawValue =>
            match headerValueToStr rawValue with
            | some str =>
              match parseU64 str with
              | some secs => .ok secs
              | none => .error ()
            | none => .error ()
          | none => .ok (2 ^ retries)
        match wait with
        | .error _ => ⟨parse_error_response resp, [], 0⟩
        | .ok w =>
          match resend retries with
          | .error e => ⟨.error e, [w], 1⟩
          | .ok newResponse =>
            let rest := handleRetryLoop resend budget' (retries + 1) newResponse
            ⟨rest.result, w :: rest.waits, rest.resends + 1⟩
    else ⟨parse_error_response resp, [], 0⟩

/-- Function `handle_response_and_retry_if_needed` (`acs_email.rs:480-544`): the loop
entered with `retries = 0`, so with full budget `max_retries`. -/
def handle_response_and_retry_if_needed (resp : HttpResponse)
    (resend : Nat → Except ErrorResponse HttpResponse) (max_retries : Nat) :
    RetryRunResult :=
  handleRetryLoop resend max_retries 0 resp

/-! ## Status poller (`src/adapters/gateways/acs_email.rs`,
`send_email_with_callback`) -/

/-- The `matches!` test of `acs_email.rs:155-161`: the statuses on which the
polling loop signals completion and breaks. -/
def isTerminalStatus : EmailSendStatusType → Bool
  | .Unknown => true
  | .Canceled => true
  | .Failed => true
  | .Succeeded => true
  | .NotStarted => false
  | .Running => false

/-- One observable step of the polling task: a `sleep(Duration::from_secs n)`,
a `call_back(message_id, status, error_detail)` invocation, or the
completion signal `tx.send(())`. -/
inductive PollEvent where
  | sleep (secs : Nat)
  | callback (messageId : String) (status : EmailSendStatusType)
      (errorDetail : Option ErrorDetail)
  | complete
deriving DecidableEq, Repr

/-- The spawned polling loop of `send_email_with_callback`
(`acs_email.rs:149-178`), run against the successive outcomes of
`get_email_status` given by `statuses` (the mock's reply sequence).  Each
iteration sleeps 5 seconds, queries, and on `Ok` invokes the callback with
the status and no error detail, stopping with the completion signal when
the status is terminal; on `Err` it invokes the callback once with `Failed`
and an `ErrorDetail` whose message is the Debug-formatted failure
(`debugFmt` stands for `format!("Error getting email status: {:?}", _)`),
then signals completion.  An exhausted sequence is a run interrupted while
still polling: no completion is signalled. -/
def pollLoop (debugFmt : ErrorResponse → String) (messageId : String) :
    List (Except ErrorResponse EmailSendStatusType) → List PollEvent
  | [] => []
  | .ok status :: rest =>
    .sleep 5 :: .callback messageId status none ::
      (if isTerminalStatus status then [.complete]
       else pollLoop debugFmt messageId rest)
  | .error e :: _ =>
    [.sleep 5,
     .callback messageId .Failed (some { message := some (debugFmt e) }),
     .complete]

/-- Count of callback invocations in a poll trace. -/
def countCallbacks (events : List PollEvent) : Nat :=
  events.countP fun e =>
    match e with
    | .callback _ _ _ => true
    | _ => false

/-! ## Mock responses for the throttling scenarios -/

/-- The `n`-th reply of a mock remote API that always answers
`429 Too Many Requests` with no `Retry-After` header; the error bodies are
numbered so that runs distinguish which response the caller finally
receives. -/
def resp429At (n : Nat) : HttpResponse :=
  { status := 429, retryAfter := none,
    bodySentEmail := .ok ⟨none, none, some { code := some "TooManyRequests" }⟩,
    bodyError := .ok ⟨some { code := some "TooManyRequests",
                             message := some ("attempt " ++ toString n) }⟩ }

/-- The re-send function of the always-429 mock: the `k`-th re-issue yields
reply number `k + 1` (the initial response being number `0`). -/
def resendAlways429 : Nat → Except ErrorResponse HttpResponse :=
  fun k => .ok (resp429At (k + 1))

/-! ## Supporting lemmas -/

/-- One-step unfolding of the retry loop. -/
theorem handleRetryLoop_unfold (resend : Nat → Except ErrorResponse HttpResponse)
    (budget retries : Nat) (resp : HttpResponse) :
    handleRetryLoop resend budget retries resp =
      if resp.status = 202 then
        match resp.bodySentEmail with
        | .error e => ⟨.error e, [], 0⟩
        | .ok body =>
          match body.id with
          | some i => ⟨.ok i, [], 0⟩
          | none => ⟨.error create_missing_id_error, [], 0⟩
      else if resp.status = 429 ∨ resp.status = 503 then
        match budget with
        | 0 => ⟨parse_error_response resp, [], 0⟩
        | budget' + 1 =>
          let wait : Except Unit Nat :=
            match resp.retryAfter with
            | some rawValue =>
              match headerValueToStr rawValue with
              | some str =>
                match parseU64 str with
                | some secs => .ok secs
                | none => .error ()
              | none => .error ()
            | none => .ok (2 ^ retries)
          match wait with
          | .error _ => ⟨parse_error_response resp, [], 0⟩
          | .ok w =>
            match resend retries with
            | .error e => ⟨.error e, [w], 1⟩
            | .ok newResponse =>
              let rest := handleRetryLoop resend budget' (retries + 1) newResponse
              ⟨rest.result, w :: rest.waits, rest.resends + 1⟩
      else ⟨parse_error_response resp, [], 0⟩ := by
  cases budget <;> rfl

theorem splitSemiAux_of_not_mem (l : List Char) (acc : List Char)
    (h : ';' ∉ l) : splitSemiAux l acc = [acc.reverse ++ l] := by
  induction l generalizing acc with
  | nil => simp [splitSemiAux]
  | cons c cs ih =>
    have hc : c ≠ ';' := fun hc => h (hc ▸ List.mem_cons_self c cs)
    have hcs : ';' ∉ cs := fun hm => h (List.mem_cons_of_mem c hm)
    simp [splitSemiAux, hc, ih _ hcs]

theorem splitSemiAux_append (l r : List Char) (acc : List Char)
    (h : ';' ∉ l) :
    splitSemiAux (l ++ ';' :: r) acc = (acc.reverse ++ l) :: splitSemiAux r [] := by
  induction l generalizing acc with
  | nil => simp [splitSemiAux]
  | cons c cs ih =>
    have hc : c ≠ ';' := fun hc => h (hc ▸ List.mem_cons_self c cs)
    have hcs : ';' ∉ cs := fun hm => h (List.mem_cons_of_mem c hm)
    simp [splitSemiAux, hc, ih _ hcs]

/-- Splitting `a ++ ";" ++ b` on `';'` gives exactly the two fields `a` and
`b` when neither contains a `';'`. -/
theorem splitSemi_two_fields (a b : List Char) (ha : ';' ∉ a) (hb : ';' ∉ b) :
    splitSemi (a ++ ';' :: b) = [a, b] := by
  unfold splitSemi
  rw [splitSemiAux_append a b [] ha]
  simp [splitSemiAux_of_not_mem b [] hb]

theorem stripPfx_append (p s : List Char) : stripPfx p (p ++ s) = some s := by
  induction p with
  | nil => rfl
  | cons c cs ih => simp [stripPfx, ih]

theorem stripPfx_endpoint_accesskey (k : List Char) :
    stripPfx endpointPfx (accesskeyPfx ++ k) = none := rfl

/-- If any parameter in the list is malformed — neither prefix, or an
`endpoint=` whose URL does not parse or has no host — the loop rejects the
whole list, whatever the accumulator. -/
theorem parseEndpointLoop_isOk_false (params : List (List Char))
    (acc : EndPointParams) (p : List Char) (hp : p ∈ params)
    (hbad : (stripPfx endpointPfx p = none
              ∧ stripPfx accesskeyPfx p = none)
          ∨ ∃ u, stripPfx endpointPfx p = some u
              ∧ (urlParseHost u = .error () ∨ urlParseHost u = .ok none)) :
    (parseEndpointLoop params acc).isOk = false := by
  induction params generalizing acc with
  | nil => cases hp
  | cons q rest ih =>
    rcases List.mem_cons.mp hp with hpq | hpr
    · subst hpq
      rcases hbad with ⟨h1, h2⟩ | ⟨u, hu, hbadu⟩
      · simp only [parseEndpointLoop, h1, h2, Except.isOk, Except.toBool]
      · rcases hbadu with hbu | hbu <;>
          simp only [parseEndpointLoop, hu, hbu, Except.isOk, Except.toBool]
    · cases hq : stripPfx endpointPfx q with
      | some u =>
        cases hurl : urlParseHost u with
        | error e =>
          simp only [parseEndpointLoop, hq, hurl, Except.isOk, Except.toBool]
        | ok o =>
          cases o with
          | none =>
            simp only [parseEndpointLoop, hq, hurl, Except.isOk, Except.toBool]
          | some h =>
            simp only [parseEndpointLoop, hq, hurl]
            exact ih _ hpr
      | none =>
        cases hq2 : stripPfx accesskeyPfx q with
        | some key =>
          simp only [parseEndpointLoop, hq, hq2]
          exact ih _ hpr
        | none =>
          simp only [parseEndpointLoop, hq, hq2, Except.isOk, Except.toBool]

/-! ## Claims -/

/-- C10: `parse_endpoint` does not require the two fields to carry distinct
prefixes: two `endpoint=` fields are accepted (the second host wins) and
leave the access key empty, and two `accesskey=` fields are accepted (the
second key wins) and leave the host empty — so a successful parse does not
guarantee that both a host and an access key were supplied. -/
theorem parse_endpoint_duplicate_prefixes_accepted :
    parse_endpoint "endpoint=https://a.com;endpoint=https://b.com".toList
      = .ok ⟨"b.com".toList, []⟩
    ∧ parse_endpoint "accesskey=x;accesskey=y".toList
      = .ok ⟨[], "y".toList⟩ :=
  ⟨rfl, rfl⟩

/-- C8 (counterexample): the claim quantifies over every URL, but a URL may
itself contain `';'` — `https://example.com/a;b` parses with host
`example.com`, yet the connection string built from it splits into three
fields and is rejected, so the claimed round-trip fails at this input. -/
theorem parse_endpoint_roundtrip_counterexample :
    urlParseHost "https://example.com/a;b".toList
      = .ok (some "example.com".toList)
    ∧ (parse_endpoint
        "endpoint=https://example.com/a;b;accesskey=k".toList).isOk = false :=
  ⟨rfl, rfl⟩

/-- C8 (amended): for every URL `u` whose parse yields host `h` and every
access key `k`, provided neither `u` nor `k` contains `';'`, parsing
`"endpoint=" ++ u ++ ";accesskey=" ++ k` succeeds and yields exactly host
`h` and access key `k`. -/
theorem parse_endpoint_roundtrip (u k h : List Char)
    (hu : ';' ∉ u) (hk : ';' ∉ k)
    (hhost : urlParseHost u = .ok (some h)) :
    parse_endpoint ((endpointPfx ++ u) ++ ';' :: (accesskeyPfx ++ k))
      = .ok ⟨h, k⟩ := by
  have hu' : ';' ∉ endpointPfx ++ u := by
    intro hm
    rcases List.mem_append.mp hm with hm | hm
    · revert hm; decide
    · exact hu hm
  have hk' : ';' ∉ accesskeyPfx ++ k := by
    intro hm
    rcases List.mem_append.mp hm with hm | hm
    · revert hm; decide
    · exact hk hm
  unfold parse_endpoint
  rw [splitSemi_two_fields _ _ hu' hk']
  rw [if_neg (by simp)]
  simp only [parseEndpointLoop, stripPfx_append, hhost,
    stripPfx_endpoint_accesskey]

/-- C8 (witness): the spec's concrete round-trip, obtained from the amended
theorem at `u = https://example.com`, `k = QUJD`. -/
theorem parse_endpoint_roundtrip_witness :
    parse_endpoint ((endpointPfx ++ "https://example.com".toList)
        ++ ';' :: (accesskeyPfx ++ "QUJD".toList))
      = .ok ⟨"example.com".toList, "QUJD".toList⟩ :=
  parse_endpoint_roundtrip "https://example.com".toList "QUJD".toList
    "example.com".toList (by decide) (by decide) (by rfl)

/-- C9: `parse_endpoint` rejects every input that does not split on `';'`
into exactly two fields; rejects every input one of whose fields carries
neither the `endpoint=` nor the `accesskey=` prefix; and rejects every input
one of whose fields is `endpoint=` followed by a URL that fails to parse or
parses without a host.  (The embedding is a pure function, so no network
access is possible.) -/
theorem parse_endpoint_rejects :
    (∀ s, (splitSemi s).length ≠ 2 → (parse_endpoint s).isOk = false)
    ∧ (∀ s p, p ∈ splitSemi s → stripPfx endpointPfx p = none →
        stripPfx accesskeyPfx p = none → (parse_endpoint s).isOk = false)
    ∧ (∀ s p u, p ∈ splitSemi s → stripPfx endpointPfx p = some u →
        (urlParseHost u = .error () ∨ urlParseHost u = .ok none) →
        (parse_endpoint s).isOk = false) := by
  refine ⟨fun s hlen => ?_, fun s p hp h1 h2 => ?_, fun s p u hp hu hbad => ?_⟩
  · simp only [parse_endpoint, if_pos hlen, Except.isOk, Except.toBool]
  · unfold parse_endpoint
    by_cases hlen : (splitSemi s).length = 2
    · rw [if_neg (by simp [hlen])]
      exact parseEndpointLoop_isOk_false _ _ p hp (.inl ⟨h1, h2⟩)
    · simp only [if_pos hlen, Except.isOk, Except.toBool]
  · unfold parse_endpoint
    by_cases hlen : (splitSemi s).length = 2
    · rw [if_neg (by simp [hlen])]
      exact parseEndpointLoop_isOk_false _ _ p hp (.inr ⟨u, hu, hbad⟩)
    · simp only [if_pos hlen, Except.isOk, Except.toBool]

/-- C9 (witness): the three rejection modes at concrete inputs — three
fields; a field with neither prefix; an `endpoint=` URL without scheme. -/
theorem parse_endpoint_rejects_witness :
    (parse_endpoint "a;b;c".toList).isOk = false
    ∧ (parse_endpoint "foo;accesskey=k".toList).isOk = false
    ∧ (parse_endpoint "endpoint=notaurl;accesskey=k".toList).isOk = false :=
  ⟨parse_endpoint_rejects.1 "a;b;c".toList (by decide),
   parse_endpoint_rejects.2.1 "foo;accesskey=k".toList "foo".toList
     (by decide) (by decide) (by decide),
   parse_endpoint_rejects.2.2 "endpoint=notaurl;accesskey=k".toList
     "endpoint=notaurl".toList "notaurl".toList (by decide) (by decide)
     (.inl (by rfl))⟩

/-- C2 (counterexample): `build` succeeds on a builder whose recipients
value is present but carries no `to` list at all — the builder never
inspects `to`, so a submittable message lacking the `to` recipient list is
produced, contrary to the claim. -/
theorem sent_email_builder_counterexample :
    (SentEmailBuilder.build
      { headers := none, sender := some "sender@contoso.com",
        content := some { subject := some "hi", plain_text := none,
                          html := none },
        recipients := some { «to» := none, cc := none, b_cc := none },
        attachments := none, reply_to := none,
        user_engagement_tracking_disabled := none }).isOk = true := rfl

/-- C2 (amended): `build` returns an error exactly when sender, content, or
the recipients value is absent; the presence of a `to` list inside the
recipients value is not checked, so success guarantees sender, content and
a recipients record but not a `to` list. -/
theorem sent_email_builder_build_ok_iff (b : SentEmailBuilder) :
    (SentEmailBuilder.build b).isOk
      = (b.sender.isSome && b.content.isSome && b.recipients.isSome) := by
  rcases b with ⟨hd, s, c, r, a, rt, ue⟩
  cases s <;> cases c <;> cases r <;> rfl

/-- C7: on a `202 Accepted` response whose body deserializes, the send path
returns `Ok` of the body's `id` whatever the body's `status` field is (in
particular a missing `status` is no error), and returns the missing-ID
error when the `id` field is absent; in both cases no wait and no re-send
happens. -/
theorem accepted_response_id_handling (resp : HttpResponse)
    (resend : Nat → Except ErrorResponse HttpResponse) (max_retries : Nat)
    (body : SentEmailResponse) (hs : resp.status = 202)
    (hb : resp.bodySentEmail = .ok body) :
    (∀ i, body.id = some i →
      handle_response_and_retry_if_needed resp resend max_retries
        = ⟨.ok i, [], 0⟩)
    ∧ (body.id = none →
      handle_response_and_retry_if_needed resp resend max_retries
        = ⟨.error create_missing_id_error, [], 0⟩) := by
  constructor
  · intro i hi
    unfold handle_response_and_retry_if_needed
    rw [handleRetryLoop_unfold, if_pos hs, hb]
    simp only [hi]
  · intro hi
    unfold handle_response_and_retry_if_needed
    rw [handleRetryLoop_unfold, if_pos hs, hb]
    simp only [hi]

/-- C7 (witness): a `202` body `{"id":"abc123"}` with no `status` yields
`Ok "abc123"`, and a `202` body with no `id` yields the missing-ID
error. -/
theorem accepted_response_id_handling_witness :
    handle_response_and_retry_if_needed
      ⟨202, none, .ok ⟨some "abc123", none, none⟩, .ok ⟨none⟩⟩
      (fun _ => .error ⟨none⟩) 3 = ⟨.ok "abc123", [], 0⟩
    ∧ handle_response_and_retry_if_needed
      ⟨202, none, .ok ⟨none, some .Running, none⟩, .ok ⟨none⟩⟩
      (fun _ => .error ⟨none⟩) 3 = ⟨.error create_missing_id_error, [], 0⟩ :=
  ⟨(accepted_response_id_handling _ _ 3 ⟨some "abc123", none, none⟩
      rfl rfl).1 "abc123" rfl,
   (accepted_response_id_handling _ _ 3 ⟨none, some .Running, none⟩
      rfl rfl).2 rfl⟩

/-- C4: a throttled response (`429` or `503`) carrying a `Retry-After`
header that does not read as a whole number of seconds — whether the raw
value is not even a header string or fails `parse::<u64>()` — makes the
loop return the parsed error response at once: no sleep, no re-send, no
backoff fallback. -/
theorem malformed_retry_after_fails_hard (resp : HttpResponse)
    (resend : Nat → Except ErrorResponse HttpResponse) (max_retries : Nat)
    (v : List Char) (hs : resp.status = 429 ∨ resp.status = 503)
    (hra : resp.retryAfter = some v)
    (hbad : (headerValueToStr v).bind parseU64 = none) :
    handle_response_and_retry_if_needed resp resend max_retries
      = ⟨parse_error_response resp, [], 0⟩ := by
  have hs202 : ¬ resp.status = 202 := by
    rcases hs with h | h <;> omega
  unfold handle_response_and_retry_if_needed
  rw [handleRetryLoop_unfold, if_neg hs202, if_pos hs]
  cases max_retries with
  | zero => rfl
  | succ budget =>
    simp only [hra]
    cases hv : headerValueToStr v with
    | none => simp [hv]
    | some str =>
      have hp : parseU64 str = none := by
        rw [hv] at hbad
        simpa using hbad
      simp [hv, hp]

/-- The loop re-sends at most `budget` times: each continuing iteration
consumes one unit of budget, and a `budget` of `max_retries` is what the
entry point grants. -/
theorem handleRetryLoop_resends_le (resend : Nat → Except ErrorResponse HttpResponse) :
    ∀ (budget retries : Nat) (resp : HttpResponse),
      (handleRetryLoop resend budget retries resp).resends ≤ budget := by
  intro budget
  induction budget with
  | zero =>
    intro retries resp
    rw [handleRetryLoop_unfold]
    split
    · split
      · simp
      · split <;> simp
    · split
      · simp
      · simp
  | succ b ih =>
    intro retries resp
    rw [handleRetryLoop_unfold]
    split
    · split
      · simp
      · split <;> simp
    · split
      · simp only []
        split
        · simp
        · split
          · simp
          · simp only []
            exact Nat.succ_le_succ (ih _ _)
      · simp

/-- C1 (counterexample): against the always-429 mock with no `Retry-After`
header and the send path's retry bound of 3, the successive waits before
the three retries are `2^0, 2^1, 2^2` seconds — not the claimed
`2^1, 2^2, 2^3`. -/
theorem exponential_backoff_counterexample :
    (handle_response_and_retry_if_needed (resp429At 0) resendAlways429 3).waits
      = [2 ^ 0, 2 ^ 1, 2 ^ 2]
    ∧ (handle_response_and_retry_if_needed (resp429At 0) resendAlways429 3).waits
      ≠ [2 ^ 1, 2 ^ 2, 2 ^ 3] :=
  ⟨rfl, by decide⟩

/-- C1 (amended): on a throttled response (`429` or `503`) with no
`Retry-After` header, when retries remain, the loop waits `2 ^ retries`
seconds before the re-send — the retry counter starting at 0 — so against
the always-429 mock the successive waits before the first, second and third
retry are `2^0, 2^1, 2^2` seconds. -/
theorem exponential_backoff_waits (resend : Nat → Except ErrorResponse HttpResponse)
    (resp : HttpResponse) (budget retries : Nat)
    (hs : resp.status = 429 ∨ resp.status = 503)
    (hra : resp.retryAfter = none) :
    (∃ rest, (handleRetryLoop resend (budget + 1) retries resp).waits
        = 2 ^ retries :: rest)
    ∧ (handle_response_and_retry_if_needed (resp429At 0) resendAlways429 3).waits
        = [2 ^ 0, 2 ^ 1, 2 ^ 2] := by
  constructor
  · have hs202 : ¬ resp.status = 202 := by rcases hs with h | h <;> omega
    rw [handleRetryLoop_unfold, if_neg hs202, if_pos hs]
    simp only [hra]
    cases hr : resend retries with
    | error e => exact ⟨[], by simp [hr]⟩
    | ok newResponse =>
      exact ⟨(handleRetryLoop resend budget (retries + 1) newResponse).waits,
        by simp [hr]⟩
  · rfl

/-- C1 (witness): the amended backoff at the concrete first iteration of
the always-429 run — the first wait is `2^0` seconds. -/
theorem exponential_backoff_waits_witness :
    ∃ rest, (handleRetryLoop resendAlways429 3 0 (resp429At 0)).waits
      = 2 ^ 0 :: rest :=
  (exponential_backoff_waits resendAlways429 (resp429At 0) 2 0
    (.inl rfl) rfl).1

/-- C3: the send path retries at most 3 times (the bound
`acs_send_email` passes at `acs_email.rs:461`); against the always-429
mock it performs exactly 3 retries — waiting 1, 2 and 4 seconds — and then
returns the error body of the fourth and last response (`"attempt 3"`); and
any response that is neither `202`, `429` nor `503` is surfaced as the
parsed error immediately, with no wait and no re-send. -/
theorem retry_policy_bound_and_surfacing :
    (∀ resp resend, (handle_response_and_retry_if_needed resp resend 3).resends ≤ 3)
    ∧ (handle_response_and_retry_if_needed (resp429At 0) resendAlways429 3
        = ⟨.error ⟨some { code := some "TooManyRequests",
                          message := some "attempt 3" }⟩, [1, 2, 4], 3⟩)
    ∧ (∀ resp resend max_retries, resp.status ≠ 202 → resp.status ≠ 429 →
        resp.status ≠ 503 →
        handle_response_and_retry_if_needed resp resend max_retries
          = ⟨parse_error_response resp, [], 0⟩) := by
  refine ⟨fun resp resend => handleRetryLoop_resends_le resend 3 0 resp, ?_, ?_⟩
  · rfl
  · intro resp resend max_retries h1 h2 h3
    unfold handle_response_and_retry_if_needed
    rw [handleRetryLoop_unfold, if_neg h1, if_neg (fun h => h.elim h2 h3)]

/-- C3 (witness): a `400 Bad Request` response is returned immediately as
its parsed error body, with no wait and no re-send. -/
theorem retry_policy_bound_and_surfacing_witness :
    handle_response_and_retry_if_needed
      ⟨400, none, .ok ⟨none, none, none⟩, .ok ⟨some { code := some "BadRequest" }⟩⟩
      resendAlways429 3
      = ⟨.error ⟨some { code := some "BadRequest" }⟩, [], 0⟩ :=
  retry_policy_bound_and_surfacing.2.2
    ⟨400, none, .ok ⟨none, none, none⟩, .ok ⟨some { code := some "BadRequest" }⟩⟩
    resendAlways429 3 (by decide) (by decide) (by decide)

/-- C4 (witness): a `429` with `Retry-After: 2x` is surfaced immediately:
the result is the parsed error body, with no wait and no re-send. -/
theorem malformed_retry_after_fails_hard_witness :
    handle_response_and_retry_if_needed
      ⟨429, some "2x".toList, .ok ⟨none, none, none⟩, .ok ⟨some { code := some "TooManyRequests" }⟩⟩
      resendAlways429 3
      = ⟨.error ⟨some { code := some "TooManyRequests" }⟩, [], 0⟩ :=
  malformed_retry_after_fails_hard
    ⟨429, some "2x".toList, .ok ⟨none, none, none⟩, .ok ⟨some { code := some "TooManyRequests" }⟩⟩
    resendAlways429 3 "2x".toList (.inl rfl) rfl (by decide)

/-- C5: whenever the URL has a host `h` and signing succeeds, the header
map produced for a shared-key request is exactly the six headers of
`utils.rs:117-141`, where the string handed to the HMAC is
`METHOD \n PATH(?QUERY) \n HTTP_DATE;HOST;CONTENT_HASH`, the query is
appended only when present, `HOST` is the URL's bare hostname, and the one
`http_date` rendered from the single `SystemTime::now()` read appears
identically in `repeatability-first-sent`, in `x-ms-date`, and inside the
signed string. -/
theorem shared_key_string_to_sign (hashFn : String → String)
    (signFn : String → String → Except String String)
    (fmtHttpDate : Nat → String) (now : Nat) (url_endpoint : Url)
    (http_method request_id json_payload access_key : String) (h : String)
    (hhost : url_endpoint.host_str = some h) :
    get_request_header hashFn signFn fmtHttpDate now url_endpoint
        http_method request_id json_payload access_key =
      (signFn
          (stringToSign http_method (pathAndQuery url_endpoint)
            (fmtHttpDate now) h (hashFn json_payload)) access_key).map
        (fun signature =>
          [("Content-Type", "application/json"),
           ("repeatability-request-id", request_id),
           ("repeatability-first-sent", fmtHttpDate now),
           ("x-ms-date", fmtHttpDate now),
           ("x-ms-content-sha256", hashFn json_payload),
           ("Authorization",
             "HMAC-SHA256 SignedHeaders=x-ms-date;host;x-ms-content-sha256&Signature="
               ++ signature)]) := by
  unfold get_request_header
  rw [hhost]
  cases hsig : signFn
      (stringToSign http_method (pathAndQuery url_endpoint)
        (fmtHttpDate now) h (hashFn json_payload)) access_key with
  | error e => simp [hsig, Except.map]
  | ok signature => simp [hsig, Except.map]

/-- C5 (witness): the header map at a concrete instantiation — the signing
function is instantiated so the Authorization header displays the exact
string that was signed, and the date in `repeatability-first-sent`,
`x-ms-date` and the signed string is the same `DATE`. -/
theorem shared_key_string_to_sign_witness :
    get_request_header (fun _ => "HASH") (fun s _ => .ok ("SIG:" ++ s))
        (fun _ => "DATE") 0
        ⟨some "contoso.communication.azure.com", "/emails:send",
          some "api-version=2023-01-15-preview"⟩
        "POST" "req-1" "payload" "key"
      = .ok
        [("Content-Type", "application/json"),
         ("repeatability-request-id", "req-1"),
         ("repeatability-first-sent", "DATE"),
         ("x-ms-date", "DATE"),
         ("x-ms-content-sha256", "HASH"),
         ("Authorization",
           "HMAC-SHA256 SignedHeaders=x-ms-date;host;x-ms-content-sha256&Signature="
             ++ ("SIG:" ++ ("POST" ++ "\n"
                 ++ ("/emails:send" ++ "?" ++ "api-version=2023-01-15-preview")
                 ++ "\n" ++ "DATE" ++ ";" ++ "contoso.communication.azure.com"
                 ++ ";" ++ "HASH")))] :=
  shared_key_string_to_sign (fun _ => "HASH") (fun s _ => .ok ("SIG:" ++ s))
    (fun _ => "DATE") 0
    ⟨some "contoso.communication.azure.com", "/emails:send",
      some "api-version=2023-01-15-preview"⟩
    "POST" "req-1" "payload" "key" "contoso.communication.azure.com" rfl

/-- C6: each poll iteration sleeps 5 seconds, queries, and invokes the
callback with the returned status; the loop signals completion and stops
exactly on a terminal status (`Succeeded`, `Failed`, `Canceled`, `Unknown`)
or on a query failure — in which case the callback is invoked once with
`Failed` and the underlying error attached — and continues on a
non-terminal status; for the status sequence
`[Running, Running, Succeeded]` the callback runs exactly three times
before completion is signalled. -/
theorem status_poller_behaviour :
    (∀ fmt msgId,
      pollLoop fmt msgId [.ok .Running, .ok .Running, .ok .Succeeded] =
        [.sleep 5, .callback msgId .Running none,
         .sleep 5, .callback msgId .Running none,
         .sleep 5, .callback msgId .Succeeded none, .complete]
      ∧ countCallbacks
          (pollLoop fmt msgId [.ok .Running, .ok .Running, .ok .Succeeded]) = 3)
    ∧ (∀ fmt msgId e rest, pollLoop fmt msgId (.error e :: rest) =
        [.sleep 5,
         .callback msgId .Failed (some { message := some (fmt e) }),
         .complete])
    ∧ (∀ fmt msgId s rest, isTerminalStatus s = true →
        pollLoop fmt msgId (.ok s :: rest) =
          [.sleep 5, .callback msgId s none, .complete])
    ∧ (∀ fmt msgId s rest, isTerminalStatus s = false →
        pollLoop fmt msgId (.ok s :: rest) =
          .sleep 5 :: .callback msgId s none :: pollLoop fmt msgId rest) := by
  refine ⟨fun fmt msgId => ⟨rfl, rfl⟩, fun fmt msgId e rest => rfl,
    fun fmt msgId s rest ht => ?_, fun fmt msgId s rest ht => ?_⟩
  · simp [pollLoop, ht]
  · simp [pollLoop, ht]

/-- C6 (witness): the terminal-stop and non-terminal-continue cases of the
poller at concrete statuses `Succeeded` and `Running`. -/
theorem status_poller_behaviour_witness :
    pollLoop (fun _ => "err") "msg" [.ok .Succeeded, .ok .Running] =
      [.sleep 5, .callback "msg" .Succeeded none, .complete]
    ∧ pollLoop (fun _ => "err") "msg" [.ok .Running] =
      .sleep 5 :: .callback "msg" .Running none ::
        pollLoop (fun _ => "err") "msg" [] :=
  ⟨status_poller_behaviour.2.2.1 (fun _ => "err") "msg" .Succeeded
     [.ok .Running] rfl,
   status_poller_behaviour.2.2.2 (fun _ => "err") "msg" .Running [] rfl⟩

end AcsEmail
